import Mathlib

set_option linter.unusedVariables false

/-! Shallow embedding of the tcpw utility (main.go): a command-line tool that
waits for TCP endpoints to become reachable and optionally runs a follow-up
command afterwards.  The network is abstracted as an environment-supplied
trace: each retry-loop iteration consumes one dial response plus one
observation of the shared context at the loop's pause point.  Go's
time.Duration (int64 nanoseconds) is modelled as Int; no arithmetic in the
modelled code can overflow. -/

/-- Abstraction of a Go error value as seen through the errors.As / errors.Is
tests the program performs.  Wrapping chains (e.g. a net.OpError around a
net.AddrError) are collapsed to the constructor that errors.As would find;
errorText renders the underlying error text. -/
inductive NetError where
  | addrError (addr why : String)
  | dnsError (name why : String)
  | other (text : String)
  | deadlineExceeded
  | canceled
deriving DecidableEq, Repr

/-- Does errors.As(err, StarNetAddrError) succeed on this error. -/
def NetError.isAddrError : NetError → Bool
  | .addrError _ _ => true
  | _ => false

/-- Does errors.As(err, StarNetDNSError) succeed on this error. -/
def NetError.isDNSError : NetError → Bool
  | .dnsError _ _ => true
  | _ => false

/-- Does errors.Is(err, context.DeadlineExceeded) succeed on this error. -/
def NetError.isDeadlineExceeded : NetError → Bool
  | .deadlineExceeded => true
  | _ => false

/-- The text of err.Error().  net.AddrError renders as
"address ADDR: WHY" (when Addr is nonempty); net.DNSError as
"lookup NAME: WHY"; the two context errors use their fixed Go texts. -/
def NetError.errorText : NetError → String
  | .addrError a w => if a = "" then w else "address " ++ a ++ ": " ++ w
  | .dnsError n w => "lookup " ++ n ++ ": " ++ w
  | .other t => t
  | .deadlineExceeded => "context deadline exceeded"
  | .canceled => "context canceled"

/-- Outcome of one d.DialContext call, supplied by the environment: either a
connection was established (with the result of the subsequent conn.Close,
some text meaning Close returned that error) or the dial failed with an
error. -/
inductive DialResp where
  | ok (closeErr : Option String)
  | err (e : NetError)
deriving DecidableEq, Repr

/-- Whether the dial established a connection. -/
def DialResp.isOk : DialResp → Bool
  | .ok _ => true
  | .err _ => false

/-- The spec's ProbeOutcome (section 3 of the design document):
Connected, Unreachable (retryable) or Invalid (terminal). -/
inductive ProbeOutcome where
  | Connected
  | Unreachable
  | Invalid (e : NetError)
deriving DecidableEq, Repr

/-- Spec-side classification of a single dial response (spec section 4.1):
success is Connected; a malformed-address or DNS-resolution failure is
Invalid; every other failure is Unreachable. -/
def probeSpec (resp : DialResp) : ProbeOutcome :=
  match resp with
  | .ok _ => .Connected
  | .err e => if e.isAddrError || e.isDNSError then .Invalid e else .Unreachable

/-- Reading of a TryDial return value (bool, error) as a probe outcome:
(true, nil) is Connected, (false, some e) is Invalid e,
(false, nil) is Unreachable. -/
def resultOutcome : Bool × Option NetError → ProbeOutcome
  | (true, _) => .Connected
  | (false, some e) => .Invalid e
  | (false, none) => .Unreachable

/-- The global config struct of main.go (lines 18-26): timeout and interval
are time.Duration values in nanoseconds, endpoints is the StringList built by
flag parsing, onPolicy is the field the source names "on" (a reserved word
here) holding the policy token, and command the trailing arguments. -/
structure Config where
  timeout : Int
  interval : Int
  quiet : Bool
  verbose : Bool
  endpoints : List String
  onPolicy : String
  command : List String
deriving DecidableEq, Repr

/-- Replace only the quiet/verbose flags of a configuration. -/
def Config.withFlags (cfg : Config) (q v : Bool) : Config :=
  ⟨cfg.timeout, cfg.interval, q, v, cfg.endpoints, cfg.onPolicy, cfg.command⟩

/-- printError (main.go lines 28-32): writes the line unless quiet is set.
Output is modelled as the list of emitted lines. -/
def printError (cfg : Config) (msg : String) : List String :=
  if !cfg.quiet then [msg] else []

/-- logInfo (main.go lines 34-38): writes the line unless quiet is set. -/
def logInfo (cfg : Config) (msg : String) : List String :=
  if !cfg.quiet then [msg] else []

/-- logDebug (main.go lines 40-44): writes the line only when verbose is set
and quiet is not. -/
def logDebug (cfg : Config) (msg : String) : List String :=
  if !cfg.quiet && cfg.verbose then [msg] else []

/-- TryDial (main.go lines 161-176).  The single d.DialContext call is
abstracted by the resp argument.  Returns the (bool, error) pair of the
source, the lines written to the log, and whether conn.Close was called.
On dial failure the error text is traced at debug level and the error is
returned exactly when errors.As finds a net.AddrError or net.DNSError in it;
on success the connection is closed (a Close error is only printed) and
(true, nil) is returned. -/
def TryDial (cfg : Config) (resp : DialResp) :
    (Bool × Option NetError) × List String × Bool :=
  match resp with
  | .err e =>
    ((false, if e.isAddrError || e.isDNSError then some e else none),
      logDebug cfg e.errorText, false)
  | .ok closeErr =>
    ((true, none),
      (match closeErr with
       | some m => printError cfg m
       | none => []),
      true)

/-- One iteration's worth of environment behaviour for a retry loop:
the response of the iteration's single dial, and what the loop observes at
its pause point if it reaches one — cancelCause = some c means the shared
context's Done channel is closed there and ctx.Err() returns c; none means
the ticker fires (variant one and two) or the non-blocking Done check sees
an open channel and time.Sleep completes (historical variant). -/
structure LoopAttempt where
  dial : DialResp
  cancelCause : Option NetError
deriving DecidableEq, Repr

/-- What a terminated retry loop produced: the error value it returned
(none meaning it returned nil after connecting), how many dials it made and
how many pause points it entered. -/
structure LoopResult where
  ret : Option NetError
  dials : Nat
  pauses : Nat
deriving DecidableEq, Repr

/-- time.NewTicker (Go standard library): panics when the duration is not
positive ("non-positive interval for NewTicker"); the panic is modelled as
none. -/
def NewTicker (d : Int) : Option Unit :=
  if d ≤ 0 then none else some ()

/-- The for-loop inside the goroutine of Connect (main.go lines 138-154),
run against a finite trace of environment behaviour.  Each iteration calls
TryDial; a returned error ends the loop with that error; a true result ends
it with nil after logging success; otherwise the loop waits in the
select over the ticker and ctx.Done(), continuing on a tick and returning
ctx.Err() on cancellation.  Returns none when the trace ends before the
loop terminates, together with the accumulated log lines. -/
def connectLoop (cfg : Config) (addr : String) :
    List LoopAttempt → Option LoopResult × List String
  | [] => (none, [])
  | a :: rest =>
    match TryDial cfg a.dial with
    | ((res, err), l1, _) =>
      match err with
      | some e => (some ⟨some e, 1, 0⟩, l1)
      | none =>
        if res then
          (some ⟨none, 1, 0⟩, l1 ++ logInfo cfg ("successfully connected to " ++ addr))
        else
          match a.cancelCause with
          | some cause => (some ⟨some cause, 1, 1⟩, l1)
          | none =>
            match connectLoop cfg addr rest with
            | (r, l2) => (r.map (fun x => ⟨x.ret, x.dials + 1, x.pauses + 1⟩), l1 ++ l2)

/-- The whole goroutine body passed to g.Go (main.go lines 134-155): creates
the retry ticker (panicking, modelled as none, when the interval is not
positive), traces the initial debug line and runs the retry loop. -/
def connectLoopGo (cfg : Config) (addr : String) (t : List LoopAttempt) :
    Option (Option LoopResult × List String) :=
  match NewTicker cfg.interval with
  | none => none
  | some _ =>
    match connectLoop cfg addr t with
    | (r, l) => some (r, logDebug cfg ("connecting to " ++ addr ++ "...") ++ l)

/-- A retry loop whose goroutine terminated by returning nil: the ticker was
created and the loop ended with a successful connection inside its trace. -/
def loopSucceeded (cfg : Config) (addr : String) (t : List LoopAttempt) : Bool :=
  match connectLoopGo cfg addr t with
  | some (some lr, _) => lr.ret.isNone
  | _ => false

/-- Fan-in of the errgroup (g.Wait): iterates over the endpoint list; the
whole wait diverges (none) if any goroutine panics on ticker creation or
never terminates inside its trace, and otherwise yields the first non-nil
error in endpoint order, or nil when every loop returned nil.  (Which of
several simultaneous errors errgroup.Wait surfaces is timing-dependent;
endpoint order stands in for completion order here — the spec leaves the
winner unspecified.) -/
def ConnectAux (cfg : Config) (net : String → List LoopAttempt) :
    List String → Option (Option NetError)
  | [] => some none
  | addr :: rest =>
    match connectLoopGo cfg addr (net addr) with
    | none => none
    | some (none, _) => none
    | some (some lr, _) =>
      match ConnectAux cfg net rest with
      | none => none
      | some restRes =>
        some (match lr.ret with
              | some e => some e
              | none => restRes)

/-- Connect (main.go lines 124-159): runs one retry-loop goroutine per
configured endpoint over the environment's per-address traces and waits for
all of them.  Result some r is the error value Connect returns (r = none
meaning nil); none models a run that panics or never returns. -/
def Connect (cfg : Config) (net : String → List LoopAttempt) :
    Option (Option NetError) :=
  ConnectAux cfg net cfg.endpoints

/-- Whether Connect installs the shared deadline: main.go line 126 wraps the
context with WithTimeout only when config.timeout > 0. -/
def Connect.hasDeadline (cfg : Config) : Bool :=
  decide (0 < cfg.timeout)

/-- The per-attempt timeout of the dialer Connect builds: main.go line 132
is d := net.Dialer{Timeout: config.timeout}. -/
def Connect.dialerTimeout (cfg : Config) : Int :=
  cfg.timeout

/-- The two configuration errors checkConfig can report; their Go texts are
"no endpoints provided" and the fixed message about the -on argument. -/
inductive ConfigError where
  | noEndpoints
  | badOnValue
deriving DecidableEq, Repr

/-- checkConfig (main.go lines 79-87): rejects an empty endpoint list, then a
policy token other than s, f or any; everything else passes. -/
def checkConfig (cfg : Config) : Option ConfigError :=
  if cfg.endpoints.length = 0 then some ConfigError.noEndpoints
  else if cfg.onPolicy ≠ "s" ∧ cfg.onPolicy ≠ "f" ∧ cfg.onPolicy ≠ "any" then
    some ConfigError.badOnValue
  else none

/-- App.TryDial (second source variant, main.go lines 302-317): identical to
TryDial except that it is a method reading the App value's flags; the App's
flag fields coincide with Config's. -/
def App.TryDial (app : Config) (resp : DialResp) :
    (Bool × Option NetError) × List String × Bool :=
  match resp with
  | .err e =>
    ((false, if e.isAddrError || e.isDNSError then some e else none),
      logDebug app e.errorText, false)
  | .ok closeErr =>
    ((true, none),
      (match closeErr with
       | some m => printError app m
       | none => []),
      true)

/-- The for-loop inside App.Connect's goroutine (main.go lines 279-295). -/
def App.connectLoop (app : Config) (addr : String) :
    List LoopAttempt → Option LoopResult × List String
  | [] => (none, [])
  | a :: rest =>
    match App.TryDial app a.dial with
    | ((res, err), l1, _) =>
      match err with
      | some e => (some ⟨some e, 1, 0⟩, l1)
      | none =>
        if res then
          (some ⟨none, 1, 0⟩, l1 ++ logInfo app ("successfully connected to " ++ addr))
        else
          match a.cancelCause with
          | some cause => (some ⟨some cause, 1, 1⟩, l1)
          | none =>
            match App.connectLoop app addr rest with
            | (r, l2) => (r.map (fun x => ⟨x.ret, x.dials + 1, x.pauses + 1⟩), l1 ++ l2)

/-- The goroutine body of App.Connect (main.go lines 275-296): ticker
creation then the retry loop. -/
def App.connectLoopGo (app : Config) (addr : String) (t : List LoopAttempt) :
    Option (Option LoopResult × List String) :=
  match NewTicker app.interval with
  | none => none
  | some _ =>
    match App.connectLoop app addr t with
    | (r, l) => some (r, logDebug app ("connecting to " ++ addr ++ "...") ++ l)

/-- Fan-in of App.Connect's errgroup, as for ConnectAux. -/
def App.ConnectAux (app : Config) (net : String → List LoopAttempt) :
    List String → Option (Option NetError)
  | [] => some none
  | addr :: rest =>
    match App.connectLoopGo app addr (net addr) with
    | none => none
    | some (none, _) => none
    | some (some lr, _) =>
      match App.ConnectAux app net rest with
      | none => none
      | some restRes =>
        some (match lr.ret with
              | some e => some e
              | none => restRes)

/-- App.Connect (main.go lines 265-300): the explicit-configuration variant
of Connect. -/
def App.Connect (app : Config) (net : String → List LoopAttempt) :
    Option (Option NetError) :=
  App.ConnectAux app net app.endpoints

/-- _printError of the historical variant (main.go lines 383-389). -/
def historicPrintError (cfg : Config) (msg : String) : List String :=
  if !cfg.quiet then [msg] else []

/-- _printInfo of the historical variant (main.go lines 391-395). -/
def historicPrintInfo (cfg : Config) (msg : String) : List String :=
  if !cfg.quiet then [msg] else []

/-- _printDebug of the historical variant (main.go lines 397-401). -/
def historicPrintDebug (cfg : Config) (msg : String) : List String :=
  if !cfg.quiet && cfg.verbose then [msg] else []

/-- The retry loop of the historical global-variable variant's goroutine
(main.go lines 461-480): the dial is inlined; success logs then closes and
returns nil; an error matching net.AddrError or net.DNSError is returned;
any other error leads to a non-blocking check of ctx.Done() — returning
ctx.Err() when cancelled — followed by time.Sleep(interval) and a retry.
time.Sleep never panics, so no ticker guard exists in this variant. -/
def historicLoop (cfg : Config) (addr : String) :
    List LoopAttempt → Option LoopResult × List String
  | [] => (none, [])
  | a :: rest =>
    match a.dial with
    | .err e =>
      (if e.isAddrError || e.isDNSError then
        (some ⟨some e, 1, 0⟩, historicPrintDebug cfg e.errorText)
      else
        match a.cancelCause with
        | some cause => (some ⟨some cause, 1, 1⟩, historicPrintDebug cfg e.errorText)
        | none =>
          match historicLoop cfg addr rest with
          | (r, l2) =>
            (r.map (fun x => ⟨x.ret, x.dials + 1, x.pauses + 1⟩),
              historicPrintDebug cfg e.errorText ++ l2))
    | .ok closeErr =>
      (some ⟨none, 1, 0⟩,
        historicPrintInfo cfg ("successfully connected to " ++ addr) ++
          (match closeErr with
           | some m => historicPrintError cfg m
           | none => []))

/-- Fan-in of the historical variant's errgroup (main.go lines 455-484). -/
def historicConnectAux (cfg : Config) (net : String → List LoopAttempt) :
    List String → Option (Option NetError)
  | [] => some none
  | addr :: rest =>
    match historicLoop cfg addr (net addr) with
    | (none, _) => none
    | (some lr, _) =>
      match historicConnectAux cfg net rest with
      | none => none
      | some restRes =>
        some (match lr.ret with
              | some e => some e
              | none => restRes)

/-- The wait phase of _main (main.go lines 447-485): the closure building the
errgroup over all endpoints and returning g.Wait(). -/
def historicConnect (cfg : Config) (net : String → List LoopAttempt) :
    Option (Option NetError) :=
  historicConnectAux cfg net cfg.endpoints

/-- The per-attempt timeout of the historical variant's dialer: main.go line
457 declares var d net.Dialer, whose zero Timeout means no per-attempt
bound. -/
def historicDialerTimeout : Int := 0

/-- Result of cmd.Run() on the post-check command: completion with status 0,
completion with a non-zero status (Go's exec.ExitError), or failure to run
at all. -/
inductive CmdResult where
  | success
  | exited (code : Int)
  | startFailure (text : String)
deriving DecidableEq, Repr

/-- An error value Run can return: the error Connect produced, an
exec.ExitError carrying the subprocess's exit code, or another exec
failure. -/
inductive RunError where
  | net (e : NetError)
  | exitError (code : Int)
  | execFailure (text : String)
deriving DecidableEq, Repr

/-- The error value cmd.Run() yields for each command result. -/
def CmdResult.toError : CmdResult → Option RunError
  | .success => none
  | .exited c => some (RunError.exitError c)
  | .startFailure t => some (RunError.execFailure t)

/-- The condition of main.go line 115 guarding command execution:
len(config.command) > 0 and the policy matches the Connect outcome. -/
def RunExecCond (cfg : Config) (connErr : Option NetError) : Bool :=
  decide (0 < cfg.command.length) &&
    ((cfg.onPolicy == "s" && connErr.isNone) ||
     (cfg.onPolicy == "f" && connErr.isSome) ||
     cfg.onPolicy == "any")

/-- Run (main.go lines 106-122), parameterised by the value Connect returned
(connErr) and by the behaviour of the post-check command (cmdResult).
Returns the error Run returns, whether the command was executed, and the
lines printed: a Connect error prints "timeout error" when it is
context.DeadlineExceeded and its own text verbatim otherwise; when the
execution condition holds, cmd.Run()'s result replaces the Connect error as
Run's result. -/
def Run (cfg : Config) (connErr : Option NetError) (cmdResult : CmdResult) :
    Option RunError × Bool × List String :=
  let msgs :=
    match connErr with
    | none => []
    | some e =>
      if e.isDeadlineExceeded then printError cfg "timeout error"
      else printError cfg e.errorText
  if RunExecCond cfg connErr then (cmdResult.toError, true, msgs)
  else (connErr.map RunError.net, false, msgs)

/-- The exit code main (main.go lines 97-103) derives from Run's result:
0 on nil, the subprocess's own code when errors.As finds an exec.ExitError,
and the generic code 1 for any other error. -/
def mainExitCode : Option RunError → Int
  | none => 0
  | some (RunError.exitError c) => c
  | some _ => 1

/-- Index of the first occurrence of a character (Go's bytealg.IndexByteString
on ASCII arguments). -/
def firstIndex (s : List Char) (c : Char) : Option Nat :=
  s.findIdx? (fun x => x = c)

/-- Index of the last occurrence of a character (Go's net.last). -/
def lastIndex (s : List Char) (c : Char) : Option Nat :=
  match firstIndex s.reverse c with
  | none => none
  | some i => some (s.length - 1 - i)

/-- net.SplitHostPort from the Go standard library (net/ipsock.go), the
validator StringList.Set calls: the port starts after the last colon; a
leading bracket must enclose the host and be followed by exactly that last
colon; stray colons and brackets are rejected with a net.AddrError.  Message
texts follow Go's, writing Go's quoted bracket characters bare. -/
def splitHostPort (hostPort : String) : Except NetError (String × String) :=
  let s := hostPort.toList
  match lastIndex s ':' with
  | none => Except.error (NetError.addrError hostPort "missing port in address")
  | some i =>
    if s.head? = some '[' then
      match firstIndex s ']' with
      | none => Except.error (NetError.addrError hostPort "missing ] in address")
      | some e =>
        if e + 1 = s.length then
          Except.error (NetError.addrError hostPort "missing port in address")
        else if e + 1 = i then
          if (firstIndex (s.drop 1) '[').isSome then
            Except.error (NetError.addrError hostPort "unexpected [ in address")
          else if (firstIndex (s.drop (e + 1)) ']').isSome then
            Except.error (NetError.addrError hostPort "unexpected ] in address")
          else Except.ok (((s.drop 1).take (e - 1)).asString, (s.drop (i + 1)).asString)
        else if s.get? (e + 1) = some ':' then
          Except.error (NetError.addrError hostPort "too many colons in address")
        else Except.error (NetError.addrError hostPort "missing port in address")
    else
      if (firstIndex (s.take i) ':').isSome then
        Except.error (NetError.addrError hostPort "too many colons in address")
      else if (firstIndex s '[').isSome then
        Except.error (NetError.addrError hostPort "unexpected [ in address")
      else if (firstIndex s ']').isSome then
        Except.error (NetError.addrError hostPort "unexpected ] in address")
      else Except.ok ((s.take i).asString, (s.drop (i + 1)).asString)

/-- StringList.Set (main.go lines 52-58): validates the value with
net.SplitHostPort only, and on success appends it unchanged. -/
def StringList.Set (s : List String) (value : String) : Except NetError (List String) :=
  match splitHostPort value with
  | Except.error e => Except.error e
  | Except.ok _ => Except.ok (s ++ [value])

/-- Whether an Except value is ok. -/
def exceptOk {ε α : Type} : Except ε α → Bool
  | Except.ok _ => true
  | Except.error _ => false

/-- Numeric value of a list of decimal digit characters. -/
def decimalValue (l : List Char) : Nat :=
  l.foldl (fun n c => n * 10 + (c.toNat - 48)) 0

/-- Modelled from the spec: the configuration-time validity the spec demands
of an endpoint ("must parse as a resolvable TCP address", spec section 3) —
the environment-independent part: the string splits into host and port and a
numeric port lies in 0-65535 (spec section 8 calls a port out of that range
invalid; Go's resolver rejects it as "invalid port", cf. the repository test
constant badAddr).  Host-name resolvability depends on the environment and
is not modelled. -/
def specResolvableTCPAddr (s : String) : Bool :=
  match splitHostPort s with
  | Except.error _ => false
  | Except.ok (_, port) =>
    decide (0 < port.toList.length) && port.toList.all Char.isDigit &&
      decide (decimalValue port.toList ≤ 65535)

theorem connectLoop_eq_app (cfg : Config) (addr : String) (t : List LoopAttempt) :
    connectLoop cfg addr t = App.connectLoop cfg addr t := by
  induction t with
  | nil => rfl
  | cons a rest ih =>
    cases a with
    | mk dial cc =>
      cases dial with
      | ok ce => simp [connectLoop, App.connectLoop, TryDial, App.TryDial]
      | err e =>
        cases h : (e.isAddrError || e.isDNSError) <;>
          cases cc <;>
            simp [connectLoop, App.connectLoop, TryDial, App.TryDial, h, ih]

theorem historicLoop_fst (cfg : Config) (addr : String) (t : List LoopAttempt) :
    (historicLoop cfg addr t).1 = (connectLoop cfg addr t).1 := by
  induction t with
  | nil => rfl
  | cons a rest ih =>
    cases a with
    | mk dial cc =>
      cases dial with
      | ok ce => simp [connectLoop, historicLoop, TryDial]
      | err e =>
        cases h : (e.isAddrError || e.isDNSError) <;>
          cases cc <;>
            simp [connectLoop, historicLoop, TryDial, h, ih]

/-- An attempt on which a retry loop keeps going: the dial failed with an
error that is neither an address nor a DNS error, and the pause point saw
the ticker fire rather than a cancelled context. -/
def retryShaped (a : LoopAttempt) : Prop :=
  (∃ e, a.dial = DialResp.err e ∧ (e.isAddrError || e.isDNSError) = false) ∧
    a.cancelCause = none

instance (a : LoopAttempt) : Decidable (retryShaped a) := by
  unfold retryShaped
  cases a.dial <;> cases a.cancelCause <;> simp <;> infer_instance

theorem connectLoop_none_iff (cfg : Config) (addr : String) (t : List LoopAttempt) :
    (connectLoop cfg addr t).1 = none ↔ ∀ a ∈ t, retryShaped a := by
  induction t with
  | nil => simp [connectLoop]
  | cons a rest ih =>
    cases a with
    | mk dial cc =>
      cases dial with
      | ok ce => simp [connectLoop, TryDial, retryShaped]
      | err e =>
        cases h : (e.isAddrError || e.isDNSError) with
        | false =>
          rcases Bool.or_eq_false_iff.mp h with ⟨h1, h2⟩
          cases cc <;> simp [connectLoop, TryDial, h, ih, retryShaped, h1, h2]
        | true =>
          rcases Bool.or_eq_true_iff.mp h with h1 | h1 <;>
            cases cc <;> simp [connectLoop, TryDial, h, ih, retryShaped, h1]

theorem TryDial_fst (cfg cfg' : Config) (resp : DialResp) :
    (TryDial cfg resp).1 = (TryDial cfg' resp).1 := by
  cases resp <;> simp [TryDial]

theorem connectLoop_fst_cfg (cfg cfg' : Config) (addr addr' : String)
    (t : List LoopAttempt) :
    (connectLoop cfg addr t).1 = (connectLoop cfg' addr' t).1 := by
  induction t with
  | nil => rfl
  | cons a rest ih =>
    cases a with
    | mk dial cc =>
      cases dial with
      | ok ce => simp [connectLoop, TryDial]
      | err e =>
        cases h : (e.isAddrError || e.isDNSError) <;> cases cc <;>
          simp [connectLoop, TryDial, h, ih]

theorem connectLoopGo_result (cfg cfg' : Config) (addr addr' : String)
    (t : List LoopAttempt) (hint : cfg.interval = cfg'.interval) :
    (connectLoopGo cfg addr t).map Prod.fst =
      (connectLoopGo cfg' addr' t).map Prod.fst := by
  simp only [connectLoopGo, hint]
  cases NewTicker cfg'.interval with
  | none => rfl
  | some u =>
    have h := connectLoop_fst_cfg cfg cfg' addr addr' t
    cases hc : connectLoop cfg addr t with
    | mk r l =>
      cases hc' : connectLoop cfg' addr' t with
      | mk r' l' =>
        rw [hc, hc'] at h
        simp at h
        simp [h]

theorem ConnectAux_congr (cfg cfg' : Config) (net : String → List LoopAttempt)
    (hint : cfg.interval = cfg'.interval) :
    ∀ l, ConnectAux cfg net l = ConnectAux cfg' net l
  | [] => rfl
  | addr :: rest => by
    have ih := ConnectAux_congr cfg cfg' net hint rest
    have hres := connectLoopGo_result cfg cfg' addr addr (net addr) hint
    simp only [ConnectAux]
    cases hg : connectLoopGo cfg addr (net addr) with
    | none =>
      rw [hg] at hres
      cases hg' : connectLoopGo cfg' addr (net addr) with
      | none => rfl
      | some p => rw [hg'] at hres; simp at hres
    | some p =>
      rw [hg] at hres
      cases hg' : connectLoopGo cfg' addr (net addr) with
      | none => rw [hg'] at hres; simp at hres
      | some p' =>
        rw [hg'] at hres
        simp at hres
        obtain ⟨r, l⟩ := p
        obtain ⟨r', l'⟩ := p'
        simp at hres
        subst hres
        cases r with
        | none => rfl
        | some lr => rw [ih]

theorem ConnectAux_some_none_iff (cfg : Config) (net : String → List LoopAttempt) :
    ∀ l : List String,
      (ConnectAux cfg net l = some none ↔
        ∀ addr ∈ l, loopSucceeded cfg addr (net addr) = true)
  | [] => by simp [ConnectAux]
  | addr :: rest => by
    have ih := ConnectAux_some_none_iff cfg net rest
    simp only [ConnectAux]
    cases hg : connectLoopGo cfg addr (net addr) with
    | none => simp [loopSucceeded, hg]
    | some p =>
      obtain ⟨r, logs⟩ := p
      cases r with
      | none => simp [loopSucceeded, hg]
      | some lr =>
        cases hrest : ConnectAux cfg net rest with
        | none =>
          rw [hrest] at ih
          constructor
          · intro h; exact Option.noConfusion h
          · intro hall
            exact absurd (ih.mpr (fun a ha => hall a (List.mem_cons_of_mem _ ha)))
              (by simp)
        | some restRes =>
          rw [hrest] at ih
          cases hret : lr.ret with
          | some e =>
            constructor
            · intro h; simp [hret] at h
            · intro hall
              have hd := hall addr (List.mem_cons_self addr rest)
              simp [loopSucceeded, hg, hret] at hd
          | none =>
            have hsucc : loopSucceeded cfg addr (net addr) = true := by
              simp [loopSucceeded, hg, hret]
            constructor
            · intro h
              have hr : restRes = none := by simpa [hret] using h
              intro a ha
              rcases List.mem_cons.mp ha with rfl | ha'
              · exact hsucc
              · exact ih.mp (by rw [hr]) a ha'
            · intro hall
              have hr : restRes = none := by
                have hres := ih.mpr (fun a ha => hall a (List.mem_cons_of_mem _ ha))
                simpa using hres
              simp [hret, hr]

theorem connectLoopGo_eq_app (cfg : Config) (addr : String) (t : List LoopAttempt) :
    App.connectLoopGo cfg addr t = connectLoopGo cfg addr t := by
  simp [connectLoopGo, App.connectLoopGo, connectLoop_eq_app]

theorem ConnectAux_eq_app (cfg : Config) (net : String → List LoopAttempt) :
    ∀ l, App.ConnectAux cfg net l = ConnectAux cfg net l
  | [] => rfl
  | addr :: rest => by
    simp only [ConnectAux, App.ConnectAux, connectLoopGo_eq_app,
      ConnectAux_eq_app cfg net rest]

theorem historicConnectAux_eq (cfg : Config) (net : String → List LoopAttempt)
    (hi : 0 < cfg.interval) :
    ∀ l, historicConnectAux cfg net l = ConnectAux cfg net l
  | [] => rfl
  | addr :: rest => by
    have ih := historicConnectAux_eq cfg net hi rest
    have hnt : NewTicker cfg.interval = some () := by
      simp [NewTicker]
      omega
    have hfst := historicLoop_fst cfg addr (net addr)
    simp only [ConnectAux, historicConnectAux, connectLoopGo, hnt]
    cases hc : connectLoop cfg addr (net addr) with
    | mk r l =>
      cases hh : historicLoop cfg addr (net addr) with
      | mk r' l' =>
        rw [hc, hh] at hfst
        simp at hfst
        subst hfst
        cases r' with
        | none => rfl
        | some lr => simp [ih]

/-- C1: a single probe attempt (TryDial) consumes exactly one dial response;
on a successful connect the connection is closed and (true, nil) — the
Connected outcome — is returned; a connect failure carrying an address or
DNS error returns (false, that error) — the terminal Invalid outcome; every
other connect failure returns (false, nil) — the retryable Unreachable
outcome.  Stated as agreement of TryDial's return value, read through
resultOutcome, with the spec-side classification probeSpec, together with:
the connection is closed exactly when the connect succeeded. -/
theorem C1_probe_classification (cfg : Config) (resp : DialResp) :
    resultOutcome (TryDial cfg resp).1 = probeSpec resp
    ∧ (TryDial cfg resp).2.2 = resp.isOk := by
  cases resp with
  | ok ce => simp [TryDial, resultOutcome, probeSpec, DialResp.isOk]
  | err e =>
    cases h : (e.isAddrError || e.isDNSError) <;>
      simp [TryDial, resultOutcome, probeSpec, DialResp.isOk, h]

/-- C2: with a positive retry interval, Connect returns nil exactly when
every endpoint's retry loop terminated with a successful connection; and
for a singleton endpoint set whose address draws an address error on its
first dial (the syntactically-invalid-address case), Connect returns that
very address error after exactly one probe with no retry pause entered —
whatever the pause observation and the rest of the trace, hence regardless
of the deadline. -/
theorem C2_wait_aggregate (cfg : Config) (net : String → List LoopAttempt)
    (hi : 0 < cfg.interval) :
    (Connect cfg net = some none ↔
      ∀ addr ∈ cfg.endpoints, loopSucceeded cfg addr (net addr) = true)
    ∧ (∀ a x m c rest, cfg.endpoints = [a] →
        net a = ⟨DialResp.err (NetError.addrError x m), c⟩ :: rest →
        Connect cfg net = some (some (NetError.addrError x m))
        ∧ (connectLoop cfg a (net a)).1 =
            some ⟨some (NetError.addrError x m), 1, 0⟩) := by
  constructor
  · exact ConnectAux_some_none_iff cfg net cfg.endpoints
  · intro a x m c rest hep hnet
    have hnt : NewTicker cfg.interval = some () := by
      simp [NewTicker]
      omega
    have hloop : (connectLoop cfg a (net a)).1 =
        some ⟨some (NetError.addrError x m), 1, 0⟩ := by
      rw [hnet]
      simp [connectLoop, TryDial, NetError.isAddrError]
    refine ⟨?_, hloop⟩
    simp only [Connect, hep, ConnectAux, connectLoopGo, hnt]
    cases hc : connectLoop cfg a (net a) with
    | mk r l =>
      rw [hc] at hloop
      simp at hloop
      subst hloop
      simp [ConnectAux]

theorem C2_wait_aggregate_witness :
    Connect ⟨0, 1000000000, true, false, ["localhost:99999"], "s", []⟩
        (fun _ => [⟨DialResp.err (NetError.addrError "99999" "invalid port"), none⟩]) =
      some (some (NetError.addrError "99999" "invalid port")) :=
  ((C2_wait_aggregate _ _ (by decide)).2 "localhost:99999" "99999" "invalid port"
    none [] rfl rfl).1

/-- C3: a retry loop terminates as soon as any of its attempts is terminal —
in particular, whenever the shared deadline's cancellation is observed at
some pause point of the trace, the loop has terminated by then (the
timeout > 0 case: the installed deadline eventually closes Done at every
suspension point); when the overall timeout is 0 no shared deadline is
installed at all; and against a permanently unreachable address with a
never-cancelled context the loop is still running after every finite number
of attempts — it retries forever. -/
theorem C3_loop_termination (cfg : Config) (addr : String) (t : List LoopAttempt)
    (k : Nat) (hk : k < t.length)
    (hc : (t.get ⟨k, hk⟩).cancelCause.isSome = true) :
    ((connectLoop cfg addr t).1.isSome = true)
    ∧ (cfg.timeout = 0 → Connect.hasDeadline cfg = false)
    ∧ (∀ n msg, (connectLoop cfg addr
        (List.replicate n ⟨DialResp.err (NetError.other msg), none⟩)).1 = none) := by
  refine ⟨?_, ?_, ?_⟩
  · cases ho : (connectLoop cfg addr t).1 with
    | none =>
      have hall := (connectLoop_none_iff cfg addr t).mp ho
      have hmem := hall _ (List.get_mem t k hk)
      rw [hmem.2] at hc
      simp at hc
    | some lr => rfl
  · intro h0
    simp [Connect.hasDeadline, h0]
  · intro n msg
    apply (connectLoop_none_iff cfg addr _).mpr
    intro a ha
    have hrep := List.eq_of_mem_replicate ha
    rw [hrep]
    exact ⟨⟨NetError.other msg, rfl, by simp [NetError.isAddrError, NetError.isDNSError]⟩, rfl⟩

theorem C3_loop_termination_witness :
    ((connectLoop ⟨0, 1000000000, true, false, [], "s", []⟩ "localhost:8080"
      [⟨DialResp.err (NetError.other "connection refused"),
        some NetError.deadlineExceeded⟩]).1.isSome = true) :=
  (C3_loop_termination _ _ _ 0 (by decide) (by decide)).1

/-- C4 counterexample: two configurations identical except for the overall
timeout give the prober different per-attempt dialer timeouts — Connect
builds its dialer as net.Dialer{Timeout: config.timeout}, so changing the
overall timeout does change the per-attempt timeout, refuting the claimed
independence. -/
theorem C4_counterexample :
    Connect.dialerTimeout ⟨1000000000, 1000000000, false, false, ["localhost:8080"], "s", []⟩ ≠
      Connect.dialerTimeout ⟨2000000000, 1000000000, false, false, ["localhost:8080"], "s", []⟩ := by
  decide

/-- C4 amended: the per-attempt connect timeout is not an independent input —
Connect sets the dialer's timeout to the overall timeout value (so it is
zero, meaning no per-attempt bound, exactly when the overall timeout is
zero), the shared deadline is installed exactly when the overall timeout is
positive, and the historical variant's dialer carries no per-attempt timeout
at all. -/
theorem C4_dialer_timeout (cfg : Config) :
    Connect.dialerTimeout cfg = cfg.timeout
    ∧ (Connect.hasDeadline cfg = true ↔ 0 < cfg.timeout)
    ∧ historicDialerTimeout = 0 := by
  refine ⟨rfl, ?_, rfl⟩
  simp [Connect.hasDeadline]

/-- C5 counterexample: the endpoint "localhost:99999" — whose port the spec
itself places outside the valid range 0-65535 and which Go refuses to
resolve (the repository's tests expect the "invalid port" address error when
it is dialled) — is accepted unchanged into the endpoint list by
StringList.Set, because net.SplitHostPort checks only the host:port
shape. -/
theorem C5_counterexample :
    StringList.Set [] "localhost:99999" = Except.ok ["localhost:99999"]
    ∧ specResolvableTCPAddr "localhost:99999" = false :=
  ⟨rfl, by decide⟩

/-- C5 amended: an endpoint is accepted into the list exactly when
net.SplitHostPort splits it syntactically into host and port — no
resolution and no port-range check happens at configuration time — and an
accepted endpoint is appended unchanged, never mutated. -/
theorem C5_set_validation (l : List String) (v : String) :
    (exceptOk (StringList.Set l v) = exceptOk (splitHostPort v))
    ∧ (∀ l2, StringList.Set l v = Except.ok l2 → l2 = l ++ [v]) := by
  constructor
  · cases h : splitHostPort v <;> simp [StringList.Set, h, exceptOk]
  · intro l2 h
    cases hs : splitHostPort v with
    | error e => simp [StringList.Set, hs] at h
    | ok p =>
      simp [StringList.Set, hs] at h
      exact h.symm

theorem C5_set_validation_witness :
    exceptOk (StringList.Set ["a:1"] "localhost:8080") =
        exceptOk (splitHostPort "localhost:8080")
    ∧ (["a:1", "localhost:8080"] : List String) = ["a:1"] ++ ["localhost:8080"] :=
  ⟨(C5_set_validation ["a:1"] "localhost:8080").1,
    (C5_set_validation ["a:1"] "localhost:8080").2 ["a:1", "localhost:8080"] rfl⟩

/-- C6: with a post-check command configured, Run executes it exactly when
the policy token matches the Connect outcome (s with nil, f with an error,
or any unconditionally); when executed, the command's own exit status
becomes the program's result (exit code 0 for a command that exited 0, its
own code through exec.ExitError for a nonzero exit, the generic 1 if the
command could not run at all); when not executed, wait success maps to exit
code 0 and wait failure to the generic nonzero code 1. -/
theorem C6_run_policy (cfg : Config) (connErr : Option NetError) (cr : CmdResult)
    (hc : cfg.command ≠ []) :
    ((Run cfg connErr cr).2.1 =
      ((cfg.onPolicy == "s" && connErr.isNone) ||
       (cfg.onPolicy == "f" && connErr.isSome) || cfg.onPolicy == "any"))
    ∧ (RunExecCond cfg connErr = true →
        mainExitCode (Run cfg connErr cr).1 =
          (match cr with
           | CmdResult.success => 0
           | CmdResult.exited c => c
           | CmdResult.startFailure _ => 1))
    ∧ (RunExecCond cfg connErr = false →
        mainExitCode (Run cfg connErr cr).1 = (if connErr.isNone then 0 else 1)) := by
  have hlen : (decide (0 < cfg.command.length)) = true := by
    simp
    exact List.length_pos.mpr hc
  have hrc : RunExecCond cfg connErr =
      ((cfg.onPolicy == "s" && connErr.isNone) ||
       (cfg.onPolicy == "f" && connErr.isSome) || cfg.onPolicy == "any") := by
    rw [RunExecCond, hlen, Bool.true_and]
  refine ⟨?_, ?_, ?_⟩
  · rw [← hrc]
    cases hp : RunExecCond cfg connErr <;> simp [Run, hp]
  · intro hp
    simp only [Run, hp, if_true]
    cases cr <;> simp [CmdResult.toError, mainExitCode]
  · intro hp
    simp only [Run, hp]
    cases connErr <;> simp [mainExitCode]

theorem C6_run_policy_witness :
    mainExitCode (Run ⟨100000000, 1000000000, true, false, ["localhost:8081"], "f",
        ["touch", "f"]⟩ (some NetError.deadlineExceeded) CmdResult.success).1 = 0 :=
  ((C6_run_policy _ _ _ (by decide)).2.1 (by decide))

/-- C7: when quiet is not set, Run's report of a Connect error distinguishes
deadline expiry from every other terminal error: a context.DeadlineExceeded
error prints the distinguished "timeout error" line, while any other error
prints its own text verbatim. -/
theorem C7_error_reporting (cfg : Config) (e : NetError) (cr : CmdResult)
    (hq : cfg.quiet = false) :
    (Run cfg (some e) cr).2.2 =
      [if e.isDeadlineExceeded then "timeout error" else e.errorText] := by
  cases hd : e.isDeadlineExceeded <;>
    cases hp : RunExecCond cfg (some e) <;>
      simp [Run, printError, hq, hd, hp]

theorem C7_error_reporting_witness :
    (Run ⟨0, 1000000000, false, false, ["localhost:8080"], "s", []⟩
      (some (NetError.addrError "99999" "invalid port")) CmdResult.success).2.2 =
      ["address 99999: invalid port"] :=
  C7_error_reporting _ _ _ rfl

/-- C8: configuration validation does not enforce the coordinator's numeric
precondition — a configuration with a non-empty endpoint list, a policy
token among s, f and any, and a non-positive retry interval passes
checkConfig, and the subsequent wait then panics in time.NewTicker inside
every endpoint goroutine before any probe (the panic is NewTicker's none;
Connect consequently yields no value): Connect is total only under the
unchecked precondition interval > 0. -/
theorem C8_interval_unchecked (cfg : Config) (net : String → List LoopAttempt)
    (h1 : cfg.endpoints ≠ [])
    (h2 : cfg.onPolicy = "s" ∨ cfg.onPolicy = "f" ∨ cfg.onPolicy = "any")
    (h3 : cfg.interval ≤ 0) :
    checkConfig cfg = none
    ∧ NewTicker cfg.interval = none
    ∧ Connect cfg net = none := by
  have hnt : NewTicker cfg.interval = none := by
    simp only [NewTicker, if_pos h3]
  refine ⟨?_, hnt, ?_⟩
  · rcases h2 with h | h | h <;>
      simp [checkConfig, h, List.length_eq_zero, h1]
  · obtain ⟨a, rest, hep⟩ := List.exists_cons_of_ne_nil h1
    simp only [Connect, hep, ConnectAux, connectLoopGo, hnt]

theorem C8_interval_unchecked_witness :
    checkConfig ⟨0, 0, true, false, ["localhost:8080"], "s", []⟩ = none
    ∧ NewTicker (Config.interval ⟨0, 0, true, false, ["localhost:8080"], "s", []⟩) = none
    ∧ Connect ⟨0, 0, true, false, ["localhost:8080"], "s", []⟩ (fun _ => []) = none :=
  C8_interval_unchecked _ _ (by decide) (Or.inl rfl) (by decide)

/-- C9: the quiet and verbose flags never affect control flow or results —
for any two flag settings and identical network behaviour, TryDial's
returned (bool, error) pair, the retry loop's result and Connect's result
are identical; only the emitted trace lines may differ. -/
theorem C9_flags_noninterference (cfg : Config) (q1 v1 q2 v2 : Bool)
    (resp : DialResp) (addr : String) (t : List LoopAttempt)
    (net : String → List LoopAttempt) :
    ((TryDial (cfg.withFlags q1 v1) resp).1 = (TryDial (cfg.withFlags q2 v2) resp).1)
    ∧ ((connectLoop (cfg.withFlags q1 v1) addr t).1 =
        (connectLoop (cfg.withFlags q2 v2) addr t).1)
    ∧ (Connect (cfg.withFlags q1 v1) net = Connect (cfg.withFlags q2 v2) net) := by
  refine ⟨TryDial_fst _ _ _, connectLoop_fst_cfg _ _ _ _ _, ?_⟩
  simp only [Connect]
  exact ConnectAux_congr (cfg.withFlags q1 v1) (cfg.withFlags q2 v2) net rfl
    cfg.endpoints

/-- C10 counterexample: with retry interval 0 — a configuration that
checkConfig accepts — and an endpoint whose first probe would connect, the
ticker-based Connect panics in time.NewTicker and yields no value, while
the historical sleep-based wait loop returns nil: the variants are not
behaviourally equivalent for every configuration. -/
theorem C10_counterexample :
    Connect ⟨0, 0, true, false, ["localhost:8080"], "s", []⟩
        (fun _ => [⟨DialResp.ok none, none⟩]) ≠
      historicConnect ⟨0, 0, true, false, ["localhost:8080"], "s", []⟩
        (fun _ => [⟨DialResp.ok none, none⟩]) := by
  decide

/-- C10 amended: the three wait variants are behaviourally equivalent on
identical per-endpoint traces whenever the retry interval is positive (the
documented default is one second): the App loop is identical to the
global-config loop, the historical loop returns the very same result (its
logs may differ), the App Connect equals the global-config Connect
unconditionally, and with a positive interval the historical wait agrees
with them as well — with a non-positive interval the ticker-based variants
panic while the sleep-based one proceeds, which is the only divergence. -/
theorem C10_variant_equivalence (cfg : Config) (addr : String)
    (t : List LoopAttempt) (net : String → List LoopAttempt) :
    (connectLoop cfg addr t = App.connectLoop cfg addr t)
    ∧ ((historicLoop cfg addr t).1 = (connectLoop cfg addr t).1)
    ∧ (App.Connect cfg net = Connect cfg net)
    ∧ (0 < cfg.interval → historicConnect cfg net = Connect cfg net) := by
  refine ⟨connectLoop_eq_app cfg addr t, historicLoop_fst cfg addr t, ?_, ?_⟩
  · simp only [App.Connect, Connect]
    exact ConnectAux_eq_app cfg net _
  · intro hi
    simp only [historicConnect, Connect]
    exact historicConnectAux_eq cfg net hi _

theorem C10_variant_equivalence_witness :
    historicConnect ⟨0, 1000000000, true, false, ["localhost:8080"], "s", []⟩
        (fun _ => [⟨DialResp.ok none, none⟩]) =
      Connect ⟨0, 1000000000, true, false, ["localhost:8080"], "s", []⟩
        (fun _ => [⟨DialResp.ok none, none⟩]) :=
  (C10_variant_equivalence _ "localhost:8080" [] _).2.2.2 (by decide)
